import Mathlib

/-!
Verification of HandBrake's VAAPI capability-negotiation layer
(`libhb/vaapi_common.c`).  The repository file concatenates three
revisions of the same translation unit; the claims refer to two of them:

* `Impl2024` — the revision carrying the per-family capability cache
  (`hb_vaapi_caps_t`, `check_vaapi_codec_support`,
  `query_vaapi_capabilities`, bitset-based rate-control predicates and
  the decode-support surface);
* `Impl2025` — the later, simplified revision
  (`check_profile_support`, `vaapi_init_capabilities`,
  `hb_vaapi_setup_job`, `hb_vaapi_is_encoder`-based rate-control
  predicates).

Device and driver I/O is modelled by an explicit environment describing,
for each candidate render node, how the kernel and the VA driver answer
each call the code makes, together with an event trace recording every
open/close/initialize/terminate so that resource-balance and
"no device-open attempt" properties can be stated.
-/

namespace HB

/-! Enum codes from `va.h`, `libavcodec` and `handbrake.h`.  The headers
are not part of src/; the code only compares these values for equality,
so only their distinctness is relied upon.  The libva values are the
real ones. -/

def VAProfileH264Main : Int := 6
def VAProfileH264High : Int := 7
def VAProfileHEVCMain : Int := 17
def VAProfileHEVCMain10 : Int := 18
def VAEntrypointEncSlice : Int := 6
def VAEntrypointEncSliceLP : Int := 8
def VA_ATTRIB_NOT_SUPPORTED : Nat := 0x80000000
def VA_RT_FORMAT_YUV420_10 : Nat := 0x100
def VA_RC_CQP : Nat := 0x10
def VA_RC_CBR : Nat := 0x2
def VA_RC_VBR : Nat := 0x4
def HB_VCODEC_FFMPEG_VAAPI_H264 : Int := 101
def HB_VCODEC_FFMPEG_VAAPI_H265 : Int := 102
def HB_VCODEC_FFMPEG_VAAPI_H265_10BIT : Int := 103
def AV_CODEC_ID_MPEG2VIDEO : Int := 2
def AV_CODEC_ID_H264 : Int := 27
def AV_CODEC_ID_VP8 : Int := 139
def AV_CODEC_ID_VP9 : Int := 167
def AV_CODEC_ID_HEVC : Int := 173
def AV_CODEC_ID_AV1 : Int := 226
def AV_PIX_FMT_YUV420P : Int := 0
def AV_PIX_FMT_YUVJ420P : Int := 12
def AV_PIX_FMT_NV12 : Int := 23
def AV_PIX_FMT_YUV420P10 : Int := 62
def AV_PIX_FMT_P010LE : Int := 161

/-- C `int` truncation of a `uint32_t` attribute value (the code stores
`attrs[i].value` into `int` fields of `hb_vaapi_caps_t`). -/
def toInt32 (n : Nat) : Int :=
  let m := n % 4294967296
  if m < 2147483648 then (m : Int) else (m : Int) - 4294967296

/-- Resource events emitted by a probing call: `openA i ok` is the
`open(render_nodes[i])` attempt (`ok` = the fd was valid), `close i`
closes that fd, `vaInit i ok` is `vaInitialize` on node `i`'s display,
`vaTerm i` is `vaTerminate`. -/
inductive Ev where
  | openA (i : Nat) (ok : Bool)
  | close (i : Nat)
  | vaInit (i : Nat) (ok : Bool)
  | vaTerm (i : Nat)
deriving DecidableEq, Repr

def evOpenedOk : Ev → Option Nat
  | Ev.openA i true => some i
  | _ => none

def evOpenAttempt : Ev → Option Nat
  | Ev.openA i _ => some i
  | _ => none

def evClosed : Ev → Option Nat
  | Ev.close i => some i
  | _ => none

def evInitOk : Ev → Option Nat
  | Ev.vaInit i true => some i
  | _ => none

def evTermed : Ev → Option Nat
  | Ev.vaTerm i => some i
  | _ => none

/-- Node indices of successful `open` calls, in order. -/
def openedOk (t : List Ev) : List Nat := t.filterMap evOpenedOk

/-- Node indices of all `open` attempts (successful or not). -/
def openAttempts (t : List Ev) : List Nat := t.filterMap evOpenAttempt

/-- Node indices of `close` calls, in order. -/
def closedFds (t : List Ev) : List Nat := t.filterMap evClosed

/-- Node indices of successful `vaInitialize` calls, in order. -/
def initedOk (t : List Ev) : List Nat := t.filterMap evInitOk

/-- Node indices of `vaTerminate` calls, in order. -/
def termedDpys (t : List Ev) : List Nat := t.filterMap evTermed

/-- A trace is balanced when every successfully opened fd is closed and
every successfully initialized display is terminated (in matching
order). -/
def balanced (t : List Ev) : Prop :=
  openedOk t = closedFds t ∧ initedOk t = termedDpys t

theorem balanced_append {a b : List Ev} (ha : balanced a) (hb : balanced b) :
    balanced (a ++ b) := by
  unfold balanced openedOk closedFds initedOk termedDpys at *
  simp [List.filterMap_append, ha.1, ha.2, hb.1, hb.2]

/-- Reply of `vaQueryConfigEntrypoints` for one profile on one device. -/
structure EntryReply where
  ok : Bool
  entrypoints : List Int

/-- Reply of `vaGetConfigAttributes` for one profile on one device:
`ok` is `status == VA_STATUS_SUCCESS`, the rest are the `uint32_t`
values of the seven queried attributes. -/
structure AttrReply where
  ok : Bool
  rc : Nat
  maxw : Nat
  maxh : Nat
  rt : Nat
  refframes : Nat
  quality : Nat
  packed : Nat

/-- One candidate render node (an entry of `render_nodes[]`) together
with how the kernel/driver answers each call made on it. -/
structure DeviceNode where
  open_ok : Bool
  drm_version : Option String
  display_ok : Bool
  init_ok : Bool
  usable_enc_ok : Bool := false
  usable_dec_ok : Bool := false
  profiles : List Int := []
  entry : Int → EntryReply := fun _ => { ok := false, entrypoints := [] }
  attrs : Int → AttrReply :=
    fun _ => { ok := false, rc := 0, maxw := 0, maxh := 0, rt := 0,
               refframes := 0, quality := 0, packed := 0 }

/-- Process environment: the externally owned `hb_is_hardware_disabled`
flag and the candidate device list. -/
structure Env where
  hardware_disabled : Bool
  nodes : List DeviceNode

/-- The driver allow-list of `check_vaapi_codec_support` /
`check_profile_support`: two AMD variants and one Intel variant. -/
def driver_allowed (name : String) : Bool :=
  name = "amdgpu" ∨ name = "radeon" ∨ name = "i915"

/-! ## The 2024 revision: capability cache, probing, availability API -/

namespace Impl2024

/-- The per-family capability cell; default values mirror the C
initializers `{-1, -1, 0, 0, 0, 0, 0}`. -/
structure hb_vaapi_caps_t where
  supports_bframes : Int := -1
  supports_10bit : Int := -1
  max_width : Int := 0
  max_height : Int := 0
  rate_control_modes : Nat := 0
  quality_levels : Int := 0
  packed_headers : Nat := 0
deriving DecidableEq, Repr

/-- The file-scope mutable state of the translation unit:
`is_h264_available`, `is_h265_available`, the function-local static
`is_h265_10bit_available`, `vaapi_available`, `h264_caps`,
`h265_caps`.  `-1` is the "unknown" sentinel. -/
structure State where
  is_h264_available : Int := -1
  is_h265_available : Int := -1
  is_h265_10bit_available : Int := -1
  vaapi_available : Int := -1
  h264_caps : hb_vaapi_caps_t := {}
  h265_caps : hb_vaapi_caps_t := {}
deriving DecidableEq, Repr

def initState : State := {}

/-- Does the entrypoint list contain an encode entrypoint
(`VAEntrypointEncSlice` or `VAEntrypointEncSliceLP`)? -/
def hasEncode (l : List Int) : Bool :=
  l.any fun x => x = VAEntrypointEncSlice ∨ x = VAEntrypointEncSliceLP

/-- Source function `query_vaapi_capabilities`: refresh `caps` from the device's
attribute replies for `profile`.  Each attribute reported as
`VA_ATTRIB_NOT_SUPPORTED` leaves its field at the prior value; the
reference-frame attribute additionally requires `value > 1` before it
touches `supports_bframes`. -/
def query_vaapi_capabilities (d : DeviceNode) (profile : Int)
    (caps : hb_vaapi_caps_t) : hb_vaapi_caps_t :=
  let e := d.entry profile
  if ¬ e.ok ∨ e.entrypoints.length = 0 then caps
  else if ¬ hasEncode e.entrypoints then caps
  else
    let a := d.attrs profile
    if ¬ a.ok then caps
    else
      { caps with
        rate_control_modes :=
          if a.rc ≠ VA_ATTRIB_NOT_SUPPORTED then a.rc
          else caps.rate_control_modes,
        max_width :=
          if a.maxw ≠ VA_ATTRIB_NOT_SUPPORTED then toInt32 a.maxw
          else caps.max_width,
        max_height :=
          if a.maxh ≠ VA_ATTRIB_NOT_SUPPORTED then toInt32 a.maxh
          else caps.max_height,
        supports_10bit :=
          if a.rt ≠ VA_ATTRIB_NOT_SUPPORTED then
            (if a.rt &&& VA_RT_FORMAT_YUV420_10 ≠ 0 then 1 else 0)
          else caps.supports_10bit,
        supports_bframes :=
          if a.refframes ≠ VA_ATTRIB_NOT_SUPPORTED ∧ a.refframes > 1 then
            (if a.refframes > 2 then 1 else 0)
          else caps.supports_bframes,
        quality_levels :=
          if a.quality ≠ VA_ATTRIB_NOT_SUPPORTED then toInt32 a.quality
          else caps.quality_levels,
        packed_headers :=
          if a.packed ≠ VA_ATTRIB_NOT_SUPPORTED then a.packed
          else caps.packed_headers }

/-- The `caps_ptr` selection and "only query once"
(`caps_ptr->max_width == 0`) guard of `check_vaapi_codec_support`'s
success path. -/
def update_caps_for_profile (d : DeviceNode) (profile : Int) (s : State) :
    State :=
  if profile = VAProfileH264Main ∨ profile = VAProfileH264High then
    if s.h264_caps.max_width = 0 then
      { s with h264_caps := query_vaapi_capabilities d profile s.h264_caps }
    else s
  else if profile = VAProfileHEVCMain ∨ profile = VAProfileHEVCMain10 then
    if s.h265_caps.max_width = 0 then
      { s with h265_caps := query_vaapi_capabilities d profile s.h265_caps }
    else s
  else s

/-- One iteration of `check_vaapi_codec_support`'s render-node loop:
`none` means `continue` (the C code leaves the globals untouched on
every such path), `some (1, s')` means `return 1` with the capability
cache refreshed before `vaTerminate`/`close`. -/
def check_node (i : Nat) (d : DeviceNode) (profile : Int) (s : State) :
    Option (Int × State) × List Ev :=
  if ¬ d.open_ok then (none, [Ev.openA i false])
  else
    match d.drm_version with
    | some name =>
      if ¬ driver_allowed name then (none, [Ev.openA i true, Ev.close i])
      else if ¬ d.display_ok then (none, [Ev.openA i true, Ev.close i])
      else if ¬ d.init_ok then
        (none, [Ev.openA i true, Ev.vaInit i false, Ev.close i])
      else if profile ∈ d.profiles then
        (some (1, update_caps_for_profile d profile s),
         [Ev.openA i true, Ev.vaInit i true, Ev.vaTerm i, Ev.close i])
      else
        (none, [Ev.openA i true, Ev.vaInit i true, Ev.vaTerm i, Ev.close i])
    | none => (none, [Ev.openA i true, Ev.close i])

/-- The render-node loop of `check_vaapi_codec_support`. -/
def check_go (profile : Int) : List DeviceNode → Nat → State →
    Int × State × List Ev
  | [], _, s => (0, s, [])
  | d :: ds, i, s =>
    let c := check_node i d profile s
    match c.1 with
    | some rs => (rs.1, rs.2, c.2)
    | none =>
      let rest := check_go profile ds (i + 1) s
      (rest.1, rest.2.1, c.2 ++ rest.2.2)

/-- Source function `check_vaapi_codec_support`: the hardware-disabled flag is read
first and short-circuits to 0 before any device open. -/
def check_vaapi_codec_support (env : Env) (profile : Int) (s : State) :
    Int × State × List Ev :=
  if env.hardware_disabled then (0, s, [])
  else check_go profile env.nodes 0 s

/-- Source function `hb_vaapi_h264_available`: memoized
`check(H264Main) || check(H264High)` with C short-circuit `||`. -/
def hb_vaapi_h264_available (env : Env) (s : State) :
    Int × State × List Ev :=
  if s.is_h264_available = -1 then
    let c1 := check_vaapi_codec_support env VAProfileH264Main s
    if c1.1 ≠ 0 then
      (1, { c1.2.1 with is_h264_available := 1 }, c1.2.2)
    else
      let c2 := check_vaapi_codec_support env VAProfileH264High c1.2.1
      let v : Int := if c2.1 ≠ 0 then 1 else 0
      (v, { c2.2.1 with is_h264_available := v }, c1.2.2 ++ c2.2.2)
  else (s.is_h264_available, s, [])

/-- Source function `hb_vaapi_h265_available`: memoized `check(HEVCMain)`. -/
def hb_vaapi_h265_available (env : Env) (s : State) :
    Int × State × List Ev :=
  if s.is_h265_available = -1 then
    let c1 := check_vaapi_codec_support env VAProfileHEVCMain s
    let v : Int := if c1.1 ≠ 0 then 1 else 0
    (v, { c1.2.1 with is_h265_available := v }, c1.2.2)
  else (s.is_h265_available, s, [])

/-- Source function `hb_vaapi_h265_10bit_available`: memoized `check(HEVCMain10)`. -/
def hb_vaapi_h265_10bit_available (env : Env) (s : State) :
    Int × State × List Ev :=
  if s.is_h265_10bit_available = -1 then
    let c1 := check_vaapi_codec_support env VAProfileHEVCMain10 s
    let v : Int := if c1.1 ≠ 0 then 1 else 0
    (v, { c1.2.1 with is_h265_10bit_available := v }, c1.2.2)
  else (s.is_h265_10bit_available, s, [])

/-- Source function `hb_vaapi_supports_bframes`: ensure the family was probed, then
collapse the tri-state cell to a boolean (`> 0`). -/
def hb_vaapi_supports_bframes (env : Env) (vcodec : Int) (s : State) :
    Int × State × List Ev :=
  if vcodec = HB_VCODEC_FFMPEG_VAAPI_H264 then
    let a := hb_vaapi_h264_available env s
    ((if a.2.1.h264_caps.supports_bframes > 0 then 1 else 0), a.2.1, a.2.2)
  else if vcodec = HB_VCODEC_FFMPEG_VAAPI_H265 ∨
          vcodec = HB_VCODEC_FFMPEG_VAAPI_H265_10BIT then
    let a := hb_vaapi_h265_available env s
    ((if a.2.1.h265_caps.supports_bframes > 0 then 1 else 0), a.2.1, a.2.2)
  else (0, s, [])

/-- Source function `hb_vaapi_get_max_width`: measured value if positive, else the
conservative default (4096 for H264, 8192 for the H265 cell). -/
def hb_vaapi_get_max_width (env : Env) (vcodec : Int) (s : State) :
    Int × State × List Ev :=
  if vcodec = HB_VCODEC_FFMPEG_VAAPI_H264 then
    let a := hb_vaapi_h264_available env s
    ((if a.2.1.h264_caps.max_width > 0 then a.2.1.h264_caps.max_width
      else 4096), a.2.1, a.2.2)
  else if vcodec = HB_VCODEC_FFMPEG_VAAPI_H265 ∨
          vcodec = HB_VCODEC_FFMPEG_VAAPI_H265_10BIT then
    let a := hb_vaapi_h265_available env s
    ((if a.2.1.h265_caps.max_width > 0 then a.2.1.h265_caps.max_width
      else 8192), a.2.1, a.2.2)
  else (4096, s, [])

/-- Source function `hb_vaapi_get_max_height`: same shape as `hb_vaapi_get_max_width`. -/
def hb_vaapi_get_max_height (env : Env) (vcodec : Int) (s : State) :
    Int × State × List Ev :=
  if vcodec = HB_VCODEC_FFMPEG_VAAPI_H264 then
    let a := hb_vaapi_h264_available env s
    ((if a.2.1.h264_caps.max_height > 0 then a.2.1.h264_caps.max_height
      else 4096), a.2.1, a.2.2)
  else if vcodec = HB_VCODEC_FFMPEG_VAAPI_H265 ∨
          vcodec = HB_VCODEC_FFMPEG_VAAPI_H265_10BIT then
    let a := hb_vaapi_h265_available env s
    ((if a.2.1.h265_caps.max_height > 0 then a.2.1.h265_caps.max_height
      else 8192), a.2.1, a.2.2)
  else (4096, s, [])

/-- Source function `hb_vaapi_supports_cqp`: bitset membership test on the cached
rate-control modes. -/
def hb_vaapi_supports_cqp (env : Env) (vcodec : Int) (s : State) :
    Int × State × List Ev :=
  if vcodec = HB_VCODEC_FFMPEG_VAAPI_H264 then
    let a := hb_vaapi_h264_available env s
    ((if a.2.1.h264_caps.rate_control_modes &&& VA_RC_CQP ≠ 0 then 1 else 0),
     a.2.1, a.2.2)
  else if vcodec = HB_VCODEC_FFMPEG_VAAPI_H265 ∨
          vcodec = HB_VCODEC_FFMPEG_VAAPI_H265_10BIT then
    let a := hb_vaapi_h265_available env s
    ((if a.2.1.h265_caps.rate_control_modes &&& VA_RC_CQP ≠ 0 then 1 else 0),
     a.2.1, a.2.2)
  else (0, s, [])

/-- Source function `hb_vaapi_supports_vbr`. -/
def hb_vaapi_supports_vbr (env : Env) (vcodec : Int) (s : State) :
    Int × State × List Ev :=
  if vcodec = HB_VCODEC_FFMPEG_VAAPI_H264 then
    let a := hb_vaapi_h264_available env s
    ((if a.2.1.h264_caps.rate_control_modes &&& VA_RC_VBR ≠ 0 then 1 else 0),
     a.2.1, a.2.2)
  else if vcodec = HB_VCODEC_FFMPEG_VAAPI_H265 ∨
          vcodec = HB_VCODEC_FFMPEG_VAAPI_H265_10BIT then
    let a := hb_vaapi_h265_available env s
    ((if a.2.1.h265_caps.rate_control_modes &&& VA_RC_VBR ≠ 0 then 1 else 0),
     a.2.1, a.2.2)
  else (0, s, [])

/-- Source function `hb_vaapi_supports_cbr`. -/
def hb_vaapi_supports_cbr (env : Env) (vcodec : Int) (s : State) :
    Int × State × List Ev :=
  if vcodec = HB_VCODEC_FFMPEG_VAAPI_H264 then
    let a := hb_vaapi_h264_available env s
    ((if a.2.1.h264_caps.rate_control_modes &&& VA_RC_CBR ≠ 0 then 1 else 0),
     a.2.1, a.2.2)
  else if vcodec = HB_VCODEC_FFMPEG_VAAPI_H265 ∨
          vcodec = HB_VCODEC_FFMPEG_VAAPI_H265_10BIT then
    let a := hb_vaapi_h265_available env s
    ((if a.2.1.h265_caps.rate_control_modes &&& VA_RC_CBR ≠ 0 then 1 else 0),
     a.2.1, a.2.2)
  else (0, s, [])

/-- Source function `hb_vaapi_get_rc_modes`. -/
def hb_vaapi_get_rc_modes (env : Env) (vcodec : Int) (s : State) :
    Nat × State × List Ev :=
  if vcodec = HB_VCODEC_FFMPEG_VAAPI_H264 then
    let a := hb_vaapi_h264_available env s
    (a.2.1.h264_caps.rate_control_modes, a.2.1, a.2.2)
  else if vcodec = HB_VCODEC_FFMPEG_VAAPI_H265 ∨
          vcodec = HB_VCODEC_FFMPEG_VAAPI_H265_10BIT then
    let a := hb_vaapi_h265_available env s
    (a.2.1.h265_caps.rate_control_modes, a.2.1, a.2.2)
  else (0, s, [])

/-- Source function `hb_vaapi_decode_get_codec_name` (2024 revision: H264, HEVC, AV1). -/
def hb_vaapi_decode_get_codec_name (codec_id : Int) : Option String :=
  if codec_id = AV_CODEC_ID_H264 then some "h264_vaapi"
  else if codec_id = AV_CODEC_ID_HEVC then some "hevc_vaapi"
  else if codec_id = AV_CODEC_ID_AV1 then some "av1_vaapi"
  else none

def hb_vaapi_decode_h264_is_supported (env : Env) (s : State) :
    Int × State × List Ev := hb_vaapi_h264_available env s

def hb_vaapi_decode_h265_is_supported (env : Env) (s : State) :
    Int × State × List Ev := hb_vaapi_h265_available env s

def hb_vaapi_decode_h265_10bit_is_supported (env : Env) (s : State) :
    Int × State × List Ev := hb_vaapi_h265_10bit_available env s

/-- Source function `hb_vaapi_available`: memoized C short-circuit OR of the three
family predicates. -/
def hb_vaapi_available (env : Env) (s : State) : Int × State × List Ev :=
  if s.vaapi_available = -1 then
    let a1 := hb_vaapi_h264_available env s
    if a1.1 ≠ 0 then
      (1, { a1.2.1 with vaapi_available := 1 }, a1.2.2)
    else
      let a2 := hb_vaapi_h265_available env a1.2.1
      if a2.1 ≠ 0 then
        (1, { a2.2.1 with vaapi_available := 1 }, a1.2.2 ++ a2.2.2)
      else
        let a3 := hb_vaapi_h265_10bit_available env a2.2.1
        let v : Int := if a3.1 ≠ 0 then 1 else 0
        (v, { a3.2.1 with vaapi_available := v }, a1.2.2 ++ a2.2.2 ++ a3.2.2)
  else (s.vaapi_available, s, [])

def hb_vaapi_decode_av1_is_supported (env : Env) (s : State) :
    Int × State × List Ev := hb_vaapi_available env s

/-- Source function `hb_vaapi_decode_is_codec_supported`: the comment in the source
says "adapter_index is not used for VAAPI"; resolution is not consulted
either. -/
def hb_vaapi_decode_is_codec_supported (env : Env)
    (adapter_index video_codec_param pix_fmt width height : Int)
    (s : State) : Int × State × List Ev :=
  if video_codec_param = AV_CODEC_ID_H264 then
    if pix_fmt = AV_PIX_FMT_NV12 ∨ pix_fmt = AV_PIX_FMT_YUV420P ∨
       pix_fmt = AV_PIX_FMT_YUVJ420P then
      hb_vaapi_decode_h264_is_supported env s
    else (0, s, [])
  else if video_codec_param = AV_CODEC_ID_HEVC then
    if pix_fmt = AV_PIX_FMT_NV12 ∨ pix_fmt = AV_PIX_FMT_YUV420P ∨
       pix_fmt = AV_PIX_FMT_YUVJ420P then
      hb_vaapi_decode_h265_is_supported env s
    else if pix_fmt = AV_PIX_FMT_P010LE ∨ pix_fmt = AV_PIX_FMT_YUV420P10 then
      hb_vaapi_decode_h265_10bit_is_supported env s
    else (0, s, [])
  else if video_codec_param = AV_CODEC_ID_AV1 then
    if pix_fmt = AV_PIX_FMT_NV12 ∨ pix_fmt = AV_PIX_FMT_YUV420P then
      hb_vaapi_decode_av1_is_supported env s
    else (0, s, [])
  else (0, s, [])

end Impl2024

/-! ## The 2025 revision: simplified cache, job setup, KISS probing -/

namespace Impl2025

/-- The file-scope globals of the 2025 revision. -/
structure State where
  g_vaapi_init_done : Int := 0
  g_h264_available : Int := -1
  g_h265_available : Int := -1
  g_h265_10bit_available : Int := -1
deriving DecidableEq, Repr

def initState : State := {}

/-- Source function `vaapi_device_is_usable`: a `vaGetConfigAttributes` on the encode
entrypoint, retried on the decode entrypoint. -/
def vaapi_device_is_usable (d : DeviceNode) : Bool :=
  d.usable_enc_ok || d.usable_dec_ok

/-- The `drmGetVersion` gate of `check_profile_support`: note that a
NULL version falls through to `vaGetDisplayDRM` (no `continue`). -/
def drm_rejected (d : DeviceNode) : Bool :=
  match d.drm_version with
  | some name => ¬ driver_allowed name
  | none => false

/-- One iteration of `check_profile_support`'s render-node loop. -/
def check_node (i : Nat) (d : DeviceNode) (profile : Int) :
    Option Int × List Ev :=
  if ¬ d.open_ok then (none, [Ev.openA i false])
  else if drm_rejected d then (none, [Ev.openA i true, Ev.close i])
  else if ¬ d.display_ok then (none, [Ev.openA i true, Ev.close i])
  else if ¬ d.init_ok then
    (none, [Ev.openA i true, Ev.vaInit i false, Ev.close i])
  else if ¬ vaapi_device_is_usable d then
    (none, [Ev.openA i true, Ev.vaInit i true, Ev.vaTerm i, Ev.close i])
  else if profile ∈ d.profiles then
    (some 1, [Ev.openA i true, Ev.vaInit i true, Ev.vaTerm i, Ev.close i])
  else
    (none, [Ev.openA i true, Ev.vaInit i true, Ev.vaTerm i, Ev.close i])

/-- The render-node loop of `check_profile_support`. -/
def check_go (profile : Int) : List DeviceNode → Nat → Int × List Ev
  | [], _ => (0, [])
  | d :: ds, i =>
    let c := check_node i d profile
    match c.1 with
    | some r => (r, c.2)
    | none =>
      let rest := check_go profile ds (i + 1)
      (rest.1, c.2 ++ rest.2)

/-- Source function `check_profile_support` (2025): no state, no hardware-disabled
consultation — it probes whenever called. -/
def check_profile_support (env : Env) (profile : Int) : Int × List Ev :=
  check_go profile env.nodes 0

/-- Source function `vaapi_init_capabilities`: bare-sentinel one-shot guard, then the
four profile probes (`||` short-circuits the H264High probe). -/
def vaapi_init_capabilities (env : Env) (s : State) : State × List Ev :=
  if s.g_vaapi_init_done ≠ 0 then (s, [])
  else
    let c1 := check_profile_support env VAProfileH264Main
    let h264t :=
      if c1.1 ≠ 0 then ((1 : Int), c1.2)
      else
        let c2 := check_profile_support env VAProfileH264High
        ((if c2.1 ≠ 0 then (1 : Int) else 0), c1.2 ++ c2.2)
    let c3 := check_profile_support env VAProfileHEVCMain
    let c4 := check_profile_support env VAProfileHEVCMain10
    ({ g_vaapi_init_done := 1,
       g_h264_available := h264t.1,
       g_h265_available := if c3.1 ≠ 0 then 1 else 0,
       g_h265_10bit_available := if c4.1 ≠ 0 then 1 else 0 },
     h264t.2 ++ c3.2 ++ c4.2)

/-- Source function `hb_vaapi_h264_available` (2025): consults the hardware-disabled
flag before touching the cache. -/
def hb_vaapi_h264_available (env : Env) (s : State) :
    Int × State × List Ev :=
  if env.hardware_disabled then (0, s, [])
  else
    let r := vaapi_init_capabilities env s
    (r.1.g_h264_available, r.1, r.2)

/-- Source function `hb_vaapi_h265_available` (2025). -/
def hb_vaapi_h265_available (env : Env) (s : State) :
    Int × State × List Ev :=
  if env.hardware_disabled then (0, s, [])
  else
    let r := vaapi_init_capabilities env s
    (r.1.g_h265_available, r.1, r.2)

/-- Source function `hb_vaapi_h265_10bit_available` (2025). -/
def hb_vaapi_h265_10bit_available (env : Env) (s : State) :
    Int × State × List Ev :=
  if env.hardware_disabled then (0, s, [])
  else
    let r := vaapi_init_capabilities env s
    (r.1.g_h265_10bit_available, r.1, r.2)

/-- Source function `hb_vaapi_is_encoder`. -/
def hb_vaapi_is_encoder (vcodec : Int) : Int :=
  if vcodec = HB_VCODEC_FFMPEG_VAAPI_H264 ∨
     vcodec = HB_VCODEC_FFMPEG_VAAPI_H265 ∨
     vcodec = HB_VCODEC_FFMPEG_VAAPI_H265_10BIT then 1 else 0

/-- The fields of `hb_job_t` read by `hb_vaapi_setup_job`. -/
structure hb_job_t where
  vcodec : Int
  width : Int
  height : Int
deriving DecidableEq, Repr

/-- Source function `hb_vaapi_setup_job`: NULL check, unconditional
`vaapi_init_capabilities`, per-family encoder gate, then the
conservative 4096x4096 resolution gate; returns 0 on success and -1 on
any failed check, and never writes to the job. -/
def hb_vaapi_setup_job (env : Env) (job : Option hb_job_t) (s : State) :
    Int × State × List Ev :=
  match job with
  | none => (-1, s, [])
  | some j =>
    let r := vaapi_init_capabilities env s
    if hb_vaapi_is_encoder j.vcodec = 1 ∧
       ((j.vcodec = HB_VCODEC_FFMPEG_VAAPI_H264 ∧
         r.1.g_h264_available = 0) ∨
        (j.vcodec = HB_VCODEC_FFMPEG_VAAPI_H265 ∧
         r.1.g_h265_available = 0) ∨
        (j.vcodec = HB_VCODEC_FFMPEG_VAAPI_H265_10BIT ∧
         r.1.g_h265_10bit_available = 0)) then
      (-1, r.1, r.2)
    else if j.width > 4096 ∨ j.height > 4096 then (-1, r.1, r.2)
    else (0, r.1, r.2)

/-- Source function `hb_vaapi_supports_cqp` (2025): "Most VAAPI hardware supports CQP"
— returns `hb_vaapi_is_encoder`, with no availability consultation. -/
def hb_vaapi_supports_cqp (vcodec : Int) : Int := hb_vaapi_is_encoder vcodec

/-- Source function `hb_vaapi_supports_vbr` (2025). -/
def hb_vaapi_supports_vbr (vcodec : Int) : Int := hb_vaapi_is_encoder vcodec

/-- Source function `hb_vaapi_supports_cbr` (2025). -/
def hb_vaapi_supports_cbr (vcodec : Int) : Int := hb_vaapi_is_encoder vcodec

/-- Source function `hb_vaapi_supports_bframes` (2025): conservative constant 0. -/
def hb_vaapi_supports_bframes (vcodec : Int) : Int := 0

/-- Source function `hb_vaapi_decode_get_codec_name` (2025: six codecs). -/
def hb_vaapi_decode_get_codec_name (codec : Int) : Option String :=
  if codec = AV_CODEC_ID_H264 then some "h264_vaapi"
  else if codec = AV_CODEC_ID_HEVC then some "hevc_vaapi"
  else if codec = AV_CODEC_ID_AV1 then some "av1_vaapi"
  else if codec = AV_CODEC_ID_VP9 then some "vp9_vaapi"
  else if codec = AV_CODEC_ID_VP8 then some "vp8_vaapi"
  else if codec = AV_CODEC_ID_MPEG2VIDEO then some "mpeg2_vaapi"
  else none

/-! ### Interleaving semantics for the one-shot guard (claim C4)

Two threads each execute `hb_vaapi_h264_available`, decomposed into the
atomic memory operations of the C source: read the sentinel, write the
sentinel, the three availability stores, and the final availability
read returned to the caller.  The device probing itself is pure
(modelled by `check_profile_support` over the environment), so it is
folded into the stores, which only makes the code's guard look better:
the partial-population window demonstrated below exists regardless of
probe granularity. -/

/-- The value `check_profile_support(Main) || check_profile_support(High)`
assigned to `g_h264_available`. -/
def probe264 (env : Env) : Int :=
  if (check_profile_support env VAProfileH264Main).1 ≠ 0 then 1
  else if (check_profile_support env VAProfileH264High).1 ≠ 0 then 1 else 0

def probe265 (env : Env) : Int :=
  if (check_profile_support env VAProfileHEVCMain).1 ≠ 0 then 1 else 0

def probe265_10 (env : Env) : Int :=
  if (check_profile_support env VAProfileHEVCMain10).1 ≠ 0 then 1 else 0

/-- A thread's control point inside `hb_vaapi_h264_available`:
0 = test `hb_is_hardware_disabled` and the `g_vaapi_init_done` sentinel;
1 = store `g_vaapi_init_done = 1`; 2/3/4 = the three availability
stores; 5 = the `return g_h264_available` read; 6 = finished. -/
def thread_step (env : Env) (pc : Nat) (sh : State) (res : Int) :
    Nat × State × Int :=
  match pc with
  | 0 =>
    if env.hardware_disabled then (6, sh, 0)
    else if sh.g_vaapi_init_done ≠ 0 then (5, sh, res)
    else (1, sh, res)
  | 1 => (2, { sh with g_vaapi_init_done := 1 }, res)
  | 2 => (3, { sh with g_h264_available := probe264 env }, res)
  | 3 => (4, { sh with g_h265_available := probe265 env }, res)
  | 4 => (5, { sh with g_h265_10bit_available := probe265_10 env }, res)
  | 5 => (6, sh, sh.g_h264_available)
  | _ => (pc, sh, res)

/-- Two-thread system state: the shared globals plus each thread's
program counter and (eventual) return value. -/
structure CState where
  shared : State := {}
  pc1 : Nat := 0
  res1 : Int := -7
  pc2 : Nat := 0
  res2 : Int := -7
deriving DecidableEq, Repr

/-- Run one atomic step of the scheduled thread (`true` = thread 1). -/
def cstep (env : Env) (c : CState) (tid : Bool) : CState :=
  if tid then
    let r := thread_step env c.pc1 c.shared c.res1
    { c with pc1 := r.1, shared := r.2.1, res1 := r.2.2 }
  else
    let r := thread_step env c.pc2 c.shared c.res2
    { c with pc2 := r.1, shared := r.2.1, res2 := r.2.2 }

/-- Execute a schedule (list of thread ids) from a system state. -/
def crun (env : Env) (sched : List Bool) (c : CState) : CState :=
  sched.foldl (cstep env) c

end Impl2025

/-! ## Decoder resolution (claim C9) -/

/-- The relevant surface of libavcodec: decoder lookup by name
(`avcodec_find_decoder_by_name`) and by codec id
(`avcodec_find_decoder`, the software decoder for that codec). -/
structure FFEnv where
  by_name : String → Option String
  by_id : Int → Option String

/-- Source function `vaapi_find_decoder` (2024 revision): map the codec to a VAAPI
decoder name and look it up; NULL when no mapping exists. -/
def vaapi_find_decoder (ff : FFEnv) (codec_param : Int) : Option String :=
  match Impl2024.hb_vaapi_decode_get_codec_name codec_param with
  | some n => ff.by_name n
  | none => none

/-- Modelled from the spec: the hwaccel framework's decoder resolution
(spec section 4.5).  The framework that consumes
`hb_hwaccel_vaapi.find_decoder` is not under src/ — only
`vaapi_find_decoder` and `hb_vaapi_decode_get_codec_name` are — so the
surrounding resolution order is taken from the spec's words: if the
subsystem is compiled out, or the (codec, pixel format, resolution)
combination is not confirmed supported, or the hardware lookup yields
nothing, fall back to the software decoder for the same codec
(`avcodec_find_decoder`). -/
def resolve_decoder (ff : FFEnv) (compiled_in : Bool) (hw_confirmed : Bool)
    (codec : Int) : Option String :=
  if compiled_in ∧ hw_confirmed then
    match vaapi_find_decoder ff codec with
    | some d => some d
    | none => ff.by_id codec
  else ff.by_id codec

/-! ## Concrete test environments -/

/-- A healthy Intel node exposing all four probed profiles, with an
encoder that answers every attribute query (reference-frame count 3,
CQP|VBR rate control, 4096x2160 maximum). -/
def goodNode : DeviceNode :=
  { open_ok := true, drm_version := some "i915", display_ok := true,
    init_ok := true, usable_enc_ok := true,
    profiles := [VAProfileH264Main, VAProfileH264High, VAProfileHEVCMain,
                 VAProfileHEVCMain10],
    entry := fun _ => { ok := true, entrypoints := [VAEntrypointEncSlice] },
    attrs := fun _ =>
      { ok := true, rc := 0x14, maxw := 4096, maxh := 2160, rt := 0x101,
        refframes := 3, quality := 4, packed := 1 } }

/-- No devices, hardware not disabled. -/
def env0 : Env := { hardware_disabled := false, nodes := [] }

/-- One healthy device, hardware not disabled. -/
def env1 : Env := { hardware_disabled := false, nodes := [goodNode] }

/-- One healthy device, but the process-wide hardware-disabled flag is
set. -/
def envD : Env := { hardware_disabled := true, nodes := [goodNode] }

/-! ## Claim C1 -/

/-- Claim C1, counterexample.  `hb_vaapi_setup_job` does fail: with no
usable device it returns -1 for an ordinary 1920x1080 H264 hardware
job (encoder family unavailable), and with a healthy device it returns
-1 for an 8000x4000 job (resolution gate) — in both cases an error
code, not a flag adjustment. -/
theorem C1_counterexample_setup_job_fails :
    (Impl2025.hb_vaapi_setup_job env0
      (some { vcodec := HB_VCODEC_FFMPEG_VAAPI_H264,
              width := 1920, height := 1080 })
      Impl2025.initState).1 = -1 ∧
    (Impl2025.hb_vaapi_setup_job env1
      (some { vcodec := HB_VCODEC_FFMPEG_VAAPI_H264,
              width := 8000, height := 4000 })
      Impl2025.initState).1 = -1 := by
  decide

/-- Claim C1, amended: `hb_vaapi_setup_job` never touches the job; it
returns -1 for a NULL job, and otherwise returns -1 exactly when the
requested codec is a VAAPI encoder whose family probe came back
unavailable, or when the width or height exceeds 4096; in every other
case it returns 0.  (It can therefore fail a job, contrary to the
original claim.) -/
theorem C1_amended_setup_job_characterization :
    ∀ (env : Env) (j : Impl2025.hb_job_t) (s : Impl2025.State),
      Impl2025.hb_vaapi_setup_job env none s = (-1, s, []) ∧
      ((Impl2025.hb_vaapi_setup_job env (some j) s).1 = 0 ∨
       (Impl2025.hb_vaapi_setup_job env (some j) s).1 = -1) ∧
      ((Impl2025.hb_vaapi_setup_job env (some j) s).1 = -1 ↔
        ((Impl2025.hb_vaapi_is_encoder j.vcodec = 1 ∧
          ((j.vcodec = HB_VCODEC_FFMPEG_VAAPI_H264 ∧
            (Impl2025.vaapi_init_capabilities env s).1.g_h264_available = 0) ∨
           (j.vcodec = HB_VCODEC_FFMPEG_VAAPI_H265 ∧
            (Impl2025.vaapi_init_capabilities env s).1.g_h265_available = 0) ∨
           (j.vcodec = HB_VCODEC_FFMPEG_VAAPI_H265_10BIT ∧
            (Impl2025.vaapi_init_capabilities env s).1.g_h265_10bit_available
              = 0))) ∨
         j.width > 4096 ∨ j.height > 4096)) := by
  intro env j s
  refine ⟨rfl, ?_, ?_⟩ <;>
    · simp only [Impl2025.hb_vaapi_setup_job]
      split_ifs <;> simp_all <;> tauto

/-! ## Claim C3 -/

/-- Claim C3, counterexample.  With no device (hence no positive
measurement), `hb_vaapi_get_max_width`/`height` for the plain H265
encoder return the 8192 fallback, not the 4096 the claim prescribes for
H265. -/
theorem C3_counterexample_h265_fallback_is_8192 :
    (Impl2024.hb_vaapi_h265_available env0 Impl2024.initState).1 = 0 ∧
    (Impl2024.hb_vaapi_get_max_width env0 HB_VCODEC_FFMPEG_VAAPI_H265
      Impl2024.initState).1 = 8192 ∧
    (Impl2024.hb_vaapi_get_max_height env0 HB_VCODEC_FFMPEG_VAAPI_H265
      Impl2024.initState).1 = 8192 := by
  decide

/-- Claim C3, amended: `hb_vaapi_get_max_width`/`height` never return
0 (they are always positive): the measured cached value whenever it is
positive, and otherwise the conservative fallback, which is 4096 for
H264 (and for any non-VAAPI codec argument) but 8192 for BOTH H265 and
H265_10BIT, which share one capability cell. -/
theorem C3_amended_max_bounds_characterization :
    ∀ (env : Env) (v : Int) (s : Impl2024.State),
      0 < (Impl2024.hb_vaapi_get_max_width env v s).1 ∧
      0 < (Impl2024.hb_vaapi_get_max_height env v s).1 ∧
      (v = HB_VCODEC_FFMPEG_VAAPI_H264 →
        (Impl2024.hb_vaapi_get_max_width env v s).1 =
          (if 0 < ((Impl2024.hb_vaapi_h264_available env s).2.1).h264_caps.max_width
           then ((Impl2024.hb_vaapi_h264_available env s).2.1).h264_caps.max_width
           else 4096) ∧
        (Impl2024.hb_vaapi_get_max_height env v s).1 =
          (if 0 < ((Impl2024.hb_vaapi_h264_available env s).2.1).h264_caps.max_height
           then ((Impl2024.hb_vaapi_h264_available env s).2.1).h264_caps.max_height
           else 4096)) ∧
      (v = HB_VCODEC_FFMPEG_VAAPI_H265 ∨
       v = HB_VCODEC_FFMPEG_VAAPI_H265_10BIT →
        (Impl2024.hb_vaapi_get_max_width env v s).1 =
          (if 0 < ((Impl2024.hb_vaapi_h265_available env s).2.1).h265_caps.max_width
           then ((Impl2024.hb_vaapi_h265_available env s).2.1).h265_caps.max_width
           else 8192) ∧
        (Impl2024.hb_vaapi_get_max_height env v s).1 =
          (if 0 < ((Impl2024.hb_vaapi_h265_available env s).2.1).h265_caps.max_height
           then ((Impl2024.hb_vaapi_h265_available env s).2.1).h265_caps.max_height
           else 8192)) ∧
      (v ≠ HB_VCODEC_FFMPEG_VAAPI_H264 ∧ v ≠ HB_VCODEC_FFMPEG_VAAPI_H265 ∧
       v ≠ HB_VCODEC_FFMPEG_VAAPI_H265_10BIT →
        (Impl2024.hb_vaapi_get_max_width env v s).1 = 4096 ∧
        (Impl2024.hb_vaapi_get_max_height env v s).1 = 4096) := by
  intro env v s
  unfold Impl2024.hb_vaapi_get_max_width Impl2024.hb_vaapi_get_max_height
  split_ifs <;>
    simp_all [HB_VCODEC_FFMPEG_VAAPI_H264, HB_VCODEC_FFMPEG_VAAPI_H265,
              HB_VCODEC_FFMPEG_VAAPI_H265_10BIT] <;>
    omega

/-- Claim C3 witness for the amended theorem: at a concrete input the
positivity and both fallback characterizations evaluate as stated. -/
theorem C3_amended_witness :
    0 < (Impl2024.hb_vaapi_get_max_width env0 HB_VCODEC_FFMPEG_VAAPI_H265
      Impl2024.initState).1 ∧
    (Impl2024.hb_vaapi_get_max_width env0 HB_VCODEC_FFMPEG_VAAPI_H265
      Impl2024.initState).1 = 8192 := by
  refine ⟨(C3_amended_max_bounds_characterization env0
    HB_VCODEC_FFMPEG_VAAPI_H265 Impl2024.initState).1, ?_⟩
  have h := (C3_amended_max_bounds_characterization env0
    HB_VCODEC_FFMPEG_VAAPI_H265 Impl2024.initState).2.2.2.1 (Or.inl rfl)
  rw [h.1]
  decide

/-! ## Claim C4 -/

/-- Claim C4 (code bug): the one-shot guard is a bare sentinel, not a
lock.  Against one healthy device (so the computed H.264 availability
is 1), the interleaving "thread 1 reads the sentinel, thread 1 sets it,
thread 2 reads the sentinel as set and returns" makes thread 2 return
-1 — the unknown sentinel of a partially populated cache — while a
fully sequential execution returns 1.  The probing is therefore not
atomic to concurrent callers. -/
theorem C4_bare_sentinel_partial_observation :
    (Impl2025.crun env1 [true, true, false, false] {}).res2 = -1 ∧
    (Impl2025.crun env1
      [true, true, false, false, true, true, true, true] {}).res1 = 1 ∧
    (Impl2025.vaapi_init_capabilities env1
      Impl2025.initState).1.g_h264_available = 1 := by
  decide

/-! ## Claim C5 -/

theorem balanced_nil : balanced [] := ⟨rfl, rfl⟩

theorem balanced_check_node_2024 (i : Nat) (d : DeviceNode) (p : Int)
    (s : Impl2024.State) : balanced (Impl2024.check_node i d p s).2 := by
  unfold Impl2024.check_node
  repeat' split
  all_goals
    simp [balanced, openedOk, closedFds, initedOk, termedDpys,
          evOpenedOk, evClosed, evInitOk, evTermed]

theorem balanced_check_go_2024 (p : Int) :
    ∀ (ds : List DeviceNode) (i : Nat) (s : Impl2024.State),
      balanced (Impl2024.check_go p ds i s).2.2 := by
  intro ds
  induction ds with
  | nil => intro i s; exact balanced_nil
  | cons d ds ih =>
    intro i s
    simp only [Impl2024.check_go]
    cases hc : (Impl2024.check_node i d p s).1 with
    | some rs =>
      simpa using balanced_check_node_2024 i d p s
    | none =>
      simpa using balanced_append (balanced_check_node_2024 i d p s)
        (ih (i + 1) s)

theorem balanced_check_node_2025 (i : Nat) (d : DeviceNode) (p : Int) :
    balanced (Impl2025.check_node i d p).2 := by
  unfold Impl2025.check_node
  split_ifs <;>
    simp [balanced, openedOk, closedFds, initedOk, termedDpys,
          evOpenedOk, evClosed, evInitOk, evTermed]

theorem balanced_check_go_2025 (p : Int) :
    ∀ (ds : List DeviceNode) (i : Nat),
      balanced (Impl2025.check_go p ds i).2 := by
  intro ds
  induction ds with
  | nil => intro i; exact balanced_nil
  | cons d ds ih =>
    intro i
    simp only [Impl2025.check_go]
    cases hc : (Impl2025.check_node i d p).1 with
    | some r =>
      simpa using balanced_check_node_2025 i d p
    | none =>
      simpa using balanced_append (balanced_check_node_2025 i d p) (ih (i + 1))

/-- Claim C5: in every probing call — `check_vaapi_codec_support` (2024)
and `check_profile_support` (2025) — and for every environment (hence
on every exit path: success, profile-not-found, driver rejection,
failed display/context initialization, or device-list exhaustion), the
trace of successfully opened fds equals the trace of closed fds and the
trace of successfully initialized displays equals the trace of
terminated displays: every acquired handle is released before the call
returns. -/
theorem C5_probe_releases_every_handle :
    (∀ (env : Env) (p : Int) (s : Impl2024.State),
      balanced (Impl2024.check_vaapi_codec_support env p s).2.2) ∧
    (∀ (env : Env) (p : Int),
      balanced (Impl2025.check_profile_support env p).2) := by
  constructor
  · intro env p s
    unfold Impl2024.check_vaapi_codec_support
    split_ifs
    · exact balanced_nil
    · exact balanced_check_go_2024 p env.nodes 0 s
  · intro env p
    exact balanced_check_go_2025 p env.nodes 0

/-! ## Claim C2 -/

/-- Claim C2, counterexample.  In the 2025 revision, with no usable
device the H.265 availability predicate returns 0, yet
`hb_vaapi_supports_cqp`, `hb_vaapi_supports_vbr` and
`hb_vaapi_supports_cbr` all return 1 for the H.265 encoder codec: they
are `hb_vaapi_is_encoder`, independent of availability. -/
theorem C2_counterexample_supports_true_without_availability :
    (Impl2025.hb_vaapi_h265_available env0 Impl2025.initState).1 = 0 ∧
    Impl2025.hb_vaapi_supports_cqp HB_VCODEC_FFMPEG_VAAPI_H265 = 1 ∧
    Impl2025.hb_vaapi_supports_vbr HB_VCODEC_FFMPEG_VAAPI_H265 = 1 ∧
    Impl2025.hb_vaapi_supports_cbr HB_VCODEC_FFMPEG_VAAPI_H265 = 1 := by
  decide

/-- Each branch of the 2024 node check either continues (`none`,
globals untouched) or succeeds with value 1 and the capability refresh
of `update_caps_for_profile`. -/
theorem check_node_cases_2024 (i : Nat) (d : DeviceNode) (p : Int)
    (s : Impl2024.State) :
    (Impl2024.check_node i d p s).1 = none ∨
    (Impl2024.check_node i d p s).1 =
      some (1, Impl2024.update_caps_for_profile d p s) := by
  unfold Impl2024.check_node
  repeat' split
  all_goals simp

theorem check_go_effect_2024 (p : Int) :
    ∀ (ds : List DeviceNode) (i : Nat) (s : Impl2024.State),
      ((Impl2024.check_go p ds i s).1 = 0 ∧
       (Impl2024.check_go p ds i s).2.1 = s) ∨
      ((Impl2024.check_go p ds i s).1 = 1 ∧
       ∃ d, (Impl2024.check_go p ds i s).2.1 =
         Impl2024.update_caps_for_profile d p s) := by
  intro ds
  induction ds with
  | nil => intro i s; exact Or.inl ⟨rfl, rfl⟩
  | cons d ds ih =>
    intro i s
    simp only [Impl2024.check_go]
    rcases check_node_cases_2024 i d p s with h | h
    · rw [h]
      simpa using ih (i + 1) s
    · rw [h]
      exact Or.inr ⟨rfl, d, rfl⟩

/-- Effect of one `check_vaapi_codec_support` call: result 0 with the
globals untouched, or result 1 with the capability refresh of some
device. -/
theorem check_effect_2024 (env : Env) (p : Int) (s : Impl2024.State) :
    ((Impl2024.check_vaapi_codec_support env p s).1 = 0 ∧
     (Impl2024.check_vaapi_codec_support env p s).2.1 = s) ∨
    ((Impl2024.check_vaapi_codec_support env p s).1 = 1 ∧
     ∃ d, (Impl2024.check_vaapi_codec_support env p s).2.1 =
       Impl2024.update_caps_for_profile d p s) := by
  unfold Impl2024.check_vaapi_codec_support
  split_ifs
  · exact Or.inl ⟨rfl, rfl⟩
  · exact check_go_effect_2024 p env.nodes 0 s

/-- Lemma: `update_caps_for_profile` never touches the four availability
globals. -/
theorem update_caps_fields_2024 (d : DeviceNode) (p : Int)
    (s : Impl2024.State) :
    (Impl2024.update_caps_for_profile d p s).is_h264_available =
      s.is_h264_available ∧
    (Impl2024.update_caps_for_profile d p s).is_h265_available =
      s.is_h265_available ∧
    (Impl2024.update_caps_for_profile d p s).is_h265_10bit_available =
      s.is_h265_10bit_available ∧
    (Impl2024.update_caps_for_profile d p s).vaapi_available =
      s.vaapi_available := by
  unfold Impl2024.update_caps_for_profile
  split_ifs <;> simp

/-- An H264-profile refresh leaves the H265 cell unchanged. -/
theorem update_caps_h265_of_h264_2024 (d : DeviceNode) (p : Int)
    (s : Impl2024.State)
    (hp : p = VAProfileH264Main ∨ p = VAProfileH264High) :
    (Impl2024.update_caps_for_profile d p s).h265_caps = s.h265_caps := by
  unfold Impl2024.update_caps_for_profile
  rw [if_pos hp]
  split_ifs <;> rfl

/-- An HEVC-profile refresh leaves the H264 cell unchanged. -/
theorem update_caps_h264_of_hevc_2024 (d : DeviceNode) (p : Int)
    (s : Impl2024.State)
    (hp : p = VAProfileHEVCMain ∨ p = VAProfileHEVCMain10) :
    (Impl2024.update_caps_for_profile d p s).h264_caps = s.h264_caps := by
  unfold Impl2024.update_caps_for_profile
  have hn : ¬ (p = VAProfileH264Main ∨ p = VAProfileH264High) := by
    rcases hp with h | h <;> subst h <;> decide
  rw [if_neg hn, if_pos hp]
  split_ifs <;> rfl

theorem h264_avail_effect_2024 (env : Env) (s : Impl2024.State) :
    (s.is_h264_available ≠ -1 ∧
      Impl2024.hb_vaapi_h264_available env s = (s.is_h264_available, s, [])) ∨
    (s.is_h264_available = -1 ∧
      (((Impl2024.hb_vaapi_h264_available env s).1 = 0 ∧
        (Impl2024.hb_vaapi_h264_available env s).2.1 =
          { s with is_h264_available := 0 }) ∨
       ((Impl2024.hb_vaapi_h264_available env s).1 = 1 ∧
        ∃ d p', (p' = VAProfileH264Main ∨ p' = VAProfileH264High) ∧
          (Impl2024.hb_vaapi_h264_available env s).2.1 =
            { Impl2024.update_caps_for_profile d p' s with
              is_h264_available := 1 }))) := by
  unfold Impl2024.hb_vaapi_h264_available
  by_cases hs : s.is_h264_available = -1
  · rw [if_pos hs]
    dsimp only
    rcases check_effect_2024 env VAProfileH264Main s with ⟨h0, hst⟩ | ⟨h1, d, hst⟩
    · rw [h0, hst]
      simp only [ne_eq, not_true_eq_false, if_false]
      rcases check_effect_2024 env VAProfileH264High s with ⟨g0, gst⟩ | ⟨g1, d, gst⟩
      · rw [g0, gst]
        exact Or.inr ⟨hs, Or.inl ⟨rfl, rfl⟩⟩
      · rw [g1, gst]
        exact Or.inr ⟨hs, Or.inr ⟨rfl, d, VAProfileH264High, Or.inr rfl, rfl⟩⟩
    · rw [h1, hst]
      exact Or.inr ⟨hs, Or.inr ⟨rfl, d, VAProfileH264Main, Or.inl rfl, rfl⟩⟩
  · rw [if_neg hs]
    exact Or.inl ⟨hs, rfl⟩



theorem h265_avail_effect_2024 (env : Env) (s : Impl2024.State) :
    (s.is_h265_available ≠ -1 ∧
      Impl2024.hb_vaapi_h265_available env s = (s.is_h265_available, s, [])) ∨
    (s.is_h265_available = -1 ∧
      (((Impl2024.hb_vaapi_h265_available env s).1 = 0 ∧
        (Impl2024.hb_vaapi_h265_available env s).2.1 =
          { s with is_h265_available := 0 }) ∨
       ((Impl2024.hb_vaapi_h265_available env s).1 = 1 ∧
        ∃ d, (Impl2024.hb_vaapi_h265_available env s).2.1 =
          { Impl2024.update_caps_for_profile d VAProfileHEVCMain s with
            is_h265_available := 1 }))) := by
  unfold Impl2024.hb_vaapi_h265_available
  by_cases hs : s.is_h265_available = -1
  · rw [if_pos hs]
    dsimp only
    rcases check_effect_2024 env VAProfileHEVCMain s with ⟨h0, hst⟩ | ⟨h1, d, hst⟩
    · rw [h0, hst]
      exact Or.inr ⟨hs, Or.inl ⟨rfl, rfl⟩⟩
    · rw [h1, hst]
      exact Or.inr ⟨hs, Or.inr ⟨rfl, d, rfl⟩⟩
  · rw [if_neg hs]
    exact Or.inl ⟨hs, rfl⟩

theorem h265_10bit_avail_effect_2024 (env : Env) (s : Impl2024.State) :
    (s.is_h265_10bit_available ≠ -1 ∧
      Impl2024.hb_vaapi_h265_10bit_available env s =
        (s.is_h265_10bit_available, s, [])) ∨
    (s.is_h265_10bit_available = -1 ∧
      (((Impl2024.hb_vaapi_h265_10bit_available env s).1 = 0 ∧
        (Impl2024.hb_vaapi_h265_10bit_available env s).2.1 =
          { s with is_h265_10bit_available := 0 }) ∨
       ((Impl2024.hb_vaapi_h265_10bit_available env s).1 = 1 ∧
        ∃ d, (Impl2024.hb_vaapi_h265_10bit_available env s).2.1 =
          { Impl2024.update_caps_for_profile d VAProfileHEVCMain10 s with
            is_h265_10bit_available := 1 }))) := by
  unfold Impl2024.hb_vaapi_h265_10bit_available
  by_cases hs : s.is_h265_10bit_available = -1
  · rw [if_pos hs]
    dsimp only
    rcases check_effect_2024 env VAProfileHEVCMain10 s with ⟨h0, hst⟩ | ⟨h1, d, hst⟩
    · rw [h0, hst]
      exact Or.inr ⟨hs, Or.inl ⟨rfl, rfl⟩⟩
    · rw [h1, hst]
      exact Or.inr ⟨hs, Or.inr ⟨rfl, d, rfl⟩⟩
  · rw [if_neg hs]
    exact Or.inl ⟨hs, rfl⟩

def availRange (x : Int) : Prop := x = -1 ∨ x = 0 ∨ x = 1

/-- The reachable-state invariant behind claim C2: availability
sentinels stay in range, and a family's cached rate-control bitset is
still 0 unless some probe that populates its cell has succeeded (for
the shared H265 cell: unless H265 or H265_10BIT came back available). -/
def InvRC (s : Impl2024.State) : Prop :=
  availRange s.is_h264_available ∧ availRange s.is_h265_available ∧
  availRange s.is_h265_10bit_available ∧
  (s.is_h264_available ≠ 1 → s.h264_caps.rate_control_modes = 0) ∧
  (s.is_h265_available ≠ 1 → s.is_h265_10bit_available ≠ 1 →
    s.h265_caps.rate_control_modes = 0)

theorem invRC_h264_avail (env : Env) (s : Impl2024.State) (h : InvRC s) :
    InvRC ((Impl2024.hb_vaapi_h264_available env s).2.1) := by
  obtain ⟨r1, r2, r3, c4, c5⟩ := h
  rcases h264_avail_effect_2024 env s with ⟨_, he⟩ | ⟨hs, ⟨_, he⟩ | ⟨_, d, p', hp, he⟩⟩
  · rw [he]; exact ⟨r1, r2, r3, c4, c5⟩
  · rw [he]
    refine ⟨Or.inr (Or.inl rfl), r2, r3, ?_, ?_⟩
    · intro _; exact c4 (by rw [hs]; decide)
    · exact c5
  · rw [he]
    have hf := update_caps_fields_2024 d p' s
    have hc := update_caps_h265_of_h264_2024 d p' s hp
    refine ⟨Or.inr (Or.inr rfl), ?_, ?_, ?_, ?_⟩
    · show availRange (Impl2024.update_caps_for_profile d p' s).is_h265_available
      rw [hf.2.1]; exact r2
    · show availRange (Impl2024.update_caps_for_profile d p' s).is_h265_10bit_available
      rw [hf.2.2.1]; exact r3
    · intro hne; exact absurd rfl hne
    · intro h1 h2
      show (Impl2024.update_caps_for_profile d p' s).h265_caps.rate_control_modes = 0
      rw [hc]
      refine c5 ?_ ?_
      · intro hx; exact h1 (by rw [hf.2.1]; exact hx)
      · intro hx; exact h2 (by rw [hf.2.2.1]; exact hx)



theorem invRC_h265_avail (env : Env) (s : Impl2024.State) (h : InvRC s) :
    InvRC ((Impl2024.hb_vaapi_h265_available env s).2.1) := by
  obtain ⟨r1, r2, r3, c4, c5⟩ := h
  rcases h265_avail_effect_2024 env s with ⟨_, he⟩ | ⟨hs, ⟨_, he⟩ | ⟨_, d, he⟩⟩
  · rw [he]; exact ⟨r1, r2, r3, c4, c5⟩
  · rw [he]
    refine ⟨r1, Or.inr (Or.inl rfl), r3, c4, ?_⟩
    intro _ h2; exact c5 (by rw [hs]; decide) h2
  · rw [he]
    have hf := update_caps_fields_2024 d VAProfileHEVCMain s
    have hc := update_caps_h264_of_hevc_2024 d VAProfileHEVCMain s (Or.inl rfl)
    refine ⟨?_, Or.inr (Or.inr rfl), ?_, ?_, ?_⟩
    · show availRange (Impl2024.update_caps_for_profile d VAProfileHEVCMain s).is_h264_available
      rw [hf.1]; exact r1
    · show availRange (Impl2024.update_caps_for_profile d VAProfileHEVCMain s).is_h265_10bit_available
      rw [hf.2.2.1]; exact r3
    · intro h1
      show (Impl2024.update_caps_for_profile d VAProfileHEVCMain s).h264_caps.rate_control_modes = 0
      rw [hc]
      exact c4 (by intro hx; exact h1 (by rw [hf.1]; exact hx))
    · intro h1 _; exact absurd rfl h1

theorem invRC_h265_10bit_avail (env : Env) (s : Impl2024.State) (h : InvRC s) :
    InvRC ((Impl2024.hb_vaapi_h265_10bit_available env s).2.1) := by
  obtain ⟨r1, r2, r3, c4, c5⟩ := h
  rcases h265_10bit_avail_effect_2024 env s with ⟨_, he⟩ | ⟨hs, ⟨_, he⟩ | ⟨_, d, he⟩⟩
  · rw [he]; exact ⟨r1, r2, r3, c4, c5⟩
  · rw [he]
    refine ⟨r1, r2, Or.inr (Or.inl rfl), c4, ?_⟩
    intro h1 _; exact c5 h1 (by rw [hs]; decide)
  · rw [he]
    have hf := update_caps_fields_2024 d VAProfileHEVCMain10 s
    have hc := update_caps_h264_of_hevc_2024 d VAProfileHEVCMain10 s (Or.inr rfl)
    refine ⟨?_, ?_, Or.inr (Or.inr rfl), ?_, ?_⟩
    · show availRange (Impl2024.update_caps_for_profile d VAProfileHEVCMain10 s).is_h264_available
      rw [hf.1]; exact r1
    · show availRange (Impl2024.update_caps_for_profile d VAProfileHEVCMain10 s).is_h265_available
      rw [hf.2.1]; exact r2
    · intro h1
      show (Impl2024.update_caps_for_profile d VAProfileHEVCMain10 s).h264_caps.rate_control_modes = 0
      rw [hc]
      exact c4 (by intro hx; exact h1 (by rw [hf.1]; exact hx))
    · intro _ h2; exact absurd rfl h2

/-- Invariant `InvRC` is untouched by writing the cached overall-availability
field. -/
theorem invRC_set_vaapi (s : Impl2024.State) (v : Int) (h : InvRC s) :
    InvRC { s with vaapi_available := v } := h

theorem invRC_available (env : Env) (s : Impl2024.State) (h : InvRC s) :
    InvRC ((Impl2024.hb_vaapi_available env s).2.1) := by
  unfold Impl2024.hb_vaapi_available
  by_cases hv : s.vaapi_available = -1
  · rw [if_pos hv]
    dsimp only
    split_ifs <;>
      first
      | exact invRC_set_vaapi _ _ (invRC_h264_avail env s h)
      | exact invRC_set_vaapi _ _
          (invRC_h265_avail env _ (invRC_h264_avail env s h))
      | exact invRC_set_vaapi _ _
          (invRC_h265_10bit_avail env _
            (invRC_h265_avail env _ (invRC_h264_avail env s h)))
  · rw [if_neg hv]; exact h



/-- One public API call of the 2024 revision (its state effect). -/
inductive Op where
  | h264_avail
  | h265_avail
  | h265_10bit_avail
  | vaapi_avail
  | supports_bframes (v : Int)
  | get_max_width (v : Int)
  | get_max_height (v : Int)
  | supports_cqp (v : Int)
  | supports_vbr (v : Int)
  | supports_cbr (v : Int)
  | get_rc_modes (v : Int)
  | decode_is_codec_supported (a c pf w ht : Int)

/-- State effect of one API call. -/
def stepOp (e : Env) (op : Op) (s : Impl2024.State) : Impl2024.State :=
  match op with
  | Op.h264_avail => (Impl2024.hb_vaapi_h264_available e s).2.1
  | Op.h265_avail => (Impl2024.hb_vaapi_h265_available e s).2.1
  | Op.h265_10bit_avail => (Impl2024.hb_vaapi_h265_10bit_available e s).2.1
  | Op.vaapi_avail => (Impl2024.hb_vaapi_available e s).2.1
  | Op.supports_bframes v => (Impl2024.hb_vaapi_supports_bframes e v s).2.1
  | Op.get_max_width v => (Impl2024.hb_vaapi_get_max_width e v s).2.1
  | Op.get_max_height v => (Impl2024.hb_vaapi_get_max_height e v s).2.1
  | Op.supports_cqp v => (Impl2024.hb_vaapi_supports_cqp e v s).2.1
  | Op.supports_vbr v => (Impl2024.hb_vaapi_supports_vbr e v s).2.1
  | Op.supports_cbr v => (Impl2024.hb_vaapi_supports_cbr e v s).2.1
  | Op.get_rc_modes v => (Impl2024.hb_vaapi_get_rc_modes e v s).2.1
  | Op.decode_is_codec_supported a c pf w ht =>
    (Impl2024.hb_vaapi_decode_is_codec_supported e a c pf w ht s).2.1

/-- Any sequence of API calls from a fresh process. -/
def runOps : List (Env × Op) → Impl2024.State
  | [] => Impl2024.initState
  | x :: l => stepOp x.1 x.2 (runOps l)

theorem invRC_stepOp (e : Env) (op : Op) (s : Impl2024.State)
    (h : InvRC s) : InvRC (stepOp e op s) := by
  cases op with
  | h264_avail => exact invRC_h264_avail e s h
  | h265_avail => exact invRC_h265_avail e s h
  | h265_10bit_avail => exact invRC_h265_10bit_avail e s h
  | vaapi_avail => exact invRC_available e s h
  | supports_bframes v =>
    show InvRC ((Impl2024.hb_vaapi_supports_bframes e v s).2.1)
    unfold Impl2024.hb_vaapi_supports_bframes
    split_ifs <;>
      first
      | exact invRC_h264_avail e s h
      | exact invRC_h265_avail e s h
      | exact h
  | get_max_width v =>
    show InvRC ((Impl2024.hb_vaapi_get_max_width e v s).2.1)
    unfold Impl2024.hb_vaapi_get_max_width
    split_ifs <;>
      first
      | exact invRC_h264_avail e s h
      | exact invRC_h265_avail e s h
      | exact h
  | get_max_height v =>
    show InvRC ((Impl2024.hb_vaapi_get_max_height e v s).2.1)
    unfold Impl2024.hb_vaapi_get_max_height
    split_ifs <;>
      first
      | exact invRC_h264_avail e s h
      | exact invRC_h265_avail e s h
      | exact h
  | supports_cqp v =>
    show InvRC ((Impl2024.hb_vaapi_supports_cqp e v s).2.1)
    unfold Impl2024.hb_vaapi_supports_cqp
    split_ifs <;>
      first
      | exact invRC_h264_avail e s h
      | exact invRC_h265_avail e s h
      | exact h
  | supports_vbr v =>
    show InvRC ((Impl2024.hb_vaapi_supports_vbr e v s).2.1)
    unfold Impl2024.hb_vaapi_supports_vbr
    split_ifs <;>
      first
      | exact invRC_h264_avail e s h
      | exact invRC_h265_avail e s h
      | exact h
  | supports_cbr v =>
    show InvRC ((Impl2024.hb_vaapi_supports_cbr e v s).2.1)
    unfold Impl2024.hb_vaapi_supports_cbr
    split_ifs <;>
      first
      | exact invRC_h264_avail e s h
      | exact invRC_h265_avail e s h
      | exact h
  | get_rc_modes v =>
    show InvRC ((Impl2024.hb_vaapi_get_rc_modes e v s).2.1)
    unfold Impl2024.hb_vaapi_get_rc_modes
    split_ifs <;>
      first
      | exact invRC_h264_avail e s h
      | exact invRC_h265_avail e s h
      | exact h
  | decode_is_codec_supported a c pf w ht =>
    show InvRC ((Impl2024.hb_vaapi_decode_is_codec_supported e a c pf w ht s).2.1)
    unfold Impl2024.hb_vaapi_decode_is_codec_supported
      Impl2024.hb_vaapi_decode_h264_is_supported
      Impl2024.hb_vaapi_decode_h265_is_supported
      Impl2024.hb_vaapi_decode_h265_10bit_is_supported
      Impl2024.hb_vaapi_decode_av1_is_supported
    split_ifs <;>
      first
      | exact invRC_h264_avail e s h
      | exact invRC_h265_avail e s h
      | exact invRC_h265_10bit_avail e s h
      | exact invRC_available e s h
      | exact h

theorem invRC_runOps : ∀ l : List (Env × Op), InvRC (runOps l) := by
  intro l
  induction l with
  | nil =>
    exact ⟨Or.inl rfl, Or.inl rfl, Or.inl rfl, fun _ => rfl, fun _ _ => rfl⟩
  | cons x l ih => exact invRC_stepOp x.1 x.2 _ ih

theorem h264_rc_zero_of_unavail (env : Env) (s : Impl2024.State)
    (h : InvRC s) (h0 : (Impl2024.hb_vaapi_h264_available env s).1 = 0) :
    ((Impl2024.hb_vaapi_h264_available env s).2.1).h264_caps.rate_control_modes
      = 0 := by
  obtain ⟨r1, r2, r3, c4, c5⟩ := h
  rcases h264_avail_effect_2024 env s with ⟨hne, he⟩ |
    ⟨hs, ⟨hz, he⟩ | ⟨h1, d, p', hp, he⟩⟩
  · simp only [he] at h0 ⊢
    exact c4 (by omega)
  · simp only [he]
    exact c4 (by omega)
  · rw [h1] at h0
    exact absurd h0 (by decide)

theorem h265_rc_zero_of_unavail (env : Env) (s : Impl2024.State)
    (h : InvRC s) (h0 : (Impl2024.hb_vaapi_h265_available env s).1 = 0)
    (h0b : (Impl2024.hb_vaapi_h265_10bit_available env s).1 = 0) :
    ((Impl2024.hb_vaapi_h265_available env s).2.1).h265_caps.rate_control_modes
      = 0 := by
  obtain ⟨r1, r2, r3, c4, c5⟩ := h
  have h10 : s.is_h265_10bit_available ≠ 1 := by
    rcases h265_10bit_avail_effect_2024 env s with ⟨hne, he⟩ | ⟨hs, _⟩
    · simp only [he] at h0b; omega
    · omega
  rcases h265_avail_effect_2024 env s with ⟨hne, he⟩ |
    ⟨hs, ⟨hz, he⟩ | ⟨h1, d, he⟩⟩
  · simp only [he] at h0 ⊢
    exact c5 (by omega) h10
  · simp only [he]
    exact c5 (by omega) h10
  · rw [h1] at h0
    exact absurd h0 (by decide)



theorem supports_rc_zero_h264 (env : Env) (s : Impl2024.State)
    (h : InvRC s) (h0 : (Impl2024.hb_vaapi_h264_available env s).1 = 0) :
    (Impl2024.hb_vaapi_supports_cqp env HB_VCODEC_FFMPEG_VAAPI_H264 s).1 = 0 ∧
    (Impl2024.hb_vaapi_supports_vbr env HB_VCODEC_FFMPEG_VAAPI_H264 s).1 = 0 ∧
    (Impl2024.hb_vaapi_supports_cbr env HB_VCODEC_FFMPEG_VAAPI_H264 s).1 = 0 := by
  have hrc := h264_rc_zero_of_unavail env s h h0
  refine ⟨?_, ?_, ?_⟩ <;>
  · first
    | unfold Impl2024.hb_vaapi_supports_cqp
    | unfold Impl2024.hb_vaapi_supports_vbr
    | unfold Impl2024.hb_vaapi_supports_cbr
    rw [if_pos rfl]
    dsimp only
    rw [hrc]
    decide



theorem supports_rc_zero_h265 (env : Env) (s : Impl2024.State)
    (h : InvRC s) (h0 : (Impl2024.hb_vaapi_h265_available env s).1 = 0)
    (h0b : (Impl2024.hb_vaapi_h265_10bit_available env s).1 = 0) :
    (Impl2024.hb_vaapi_supports_cqp env HB_VCODEC_FFMPEG_VAAPI_H265 s).1 = 0 ∧
    (Impl2024.hb_vaapi_supports_cqp env HB_VCODEC_FFMPEG_VAAPI_H265_10BIT s).1 = 0 ∧
    (Impl2024.hb_vaapi_supports_vbr env HB_VCODEC_FFMPEG_VAAPI_H265 s).1 = 0 ∧
    (Impl2024.hb_vaapi_supports_vbr env HB_VCODEC_FFMPEG_VAAPI_H265_10BIT s).1 = 0 ∧
    (Impl2024.hb_vaapi_supports_cbr env HB_VCODEC_FFMPEG_VAAPI_H265 s).1 = 0 ∧
    (Impl2024.hb_vaapi_supports_cbr env HB_VCODEC_FFMPEG_VAAPI_H265_10BIT s).1 = 0 := by
  have hrc := h265_rc_zero_of_unavail env s h h0 h0b
  refine ⟨?_, ?_, ?_, ?_, ?_, ?_⟩ <;>
  · first
    | unfold Impl2024.hb_vaapi_supports_cqp
    | unfold Impl2024.hb_vaapi_supports_vbr
    | unfold Impl2024.hb_vaapi_supports_cbr
    rw [if_neg (by decide), if_pos (by first | exact Or.inl rfl | exact Or.inr rfl)]
    dsimp only
    rw [hrc]
    decide

theorem query_rc_confirmed_2024 (d : DeviceNode) (p : Int)
    (caps : Impl2024.hb_vaapi_caps_t) :
    (Impl2024.query_vaapi_capabilities d p caps).rate_control_modes =
      caps.rate_control_modes ∨
    ((d.attrs p).ok = true ∧ (d.attrs p).rc ≠ VA_ATTRIB_NOT_SUPPORTED ∧
     Impl2024.hasEncode (d.entry p).entrypoints = true ∧
     (Impl2024.query_vaapi_capabilities d p caps).rate_control_modes =
       (d.attrs p).rc) := by
  unfold Impl2024.query_vaapi_capabilities
  dsimp only
  by_cases h1 : ¬ (d.entry p).ok ∨ (d.entry p).entrypoints.length = 0
  · rw [if_pos h1]; exact Or.inl rfl
  · rw [if_neg h1]
    by_cases h2 : ¬ Impl2024.hasEncode (d.entry p).entrypoints
    · rw [if_pos h2]; exact Or.inl rfl
    · rw [if_neg h2]
      by_cases h3 : ¬ (d.attrs p).ok
      · rw [if_pos h3]; exact Or.inl rfl
      · rw [if_neg h3]
        by_cases h4 : (d.attrs p).rc ≠ VA_ATTRIB_NOT_SUPPORTED
        · refine Or.inr ⟨by simpa using h3, h4, by simpa using h2, ?_⟩
          show (if (d.attrs p).rc ≠ VA_ATTRIB_NOT_SUPPORTED then (d.attrs p).rc
                else caps.rate_control_modes) = (d.attrs p).rc
          rw [if_pos h4]
        · refine Or.inl ?_
          show (if (d.attrs p).rc ≠ VA_ATTRIB_NOT_SUPPORTED then (d.attrs p).rc
                else caps.rate_control_modes) = caps.rate_control_modes
          rw [if_neg h4]



/-- Claim C2, amended: in the 2024 revision the claim holds per
capability CELL rather than per family — (1) every state reachable by
any sequence of API calls from a fresh process satisfies the
rate-control invariant `InvRC`; (2) under that invariant, when H264 is
unavailable all three rate-control predicates are 0 for the H264 codec;
(3) when BOTH H265 and H265_10BIT are unavailable they are 0 for both
H265 codecs (the two families share one cell, so availability of either
family can set the shared bits — the claim's per-family phrasing fails
there too); (4) `query_vaapi_capabilities` only ever stores a
rate-control bitmask taken verbatim from a successful attribute query
with a confirmed encode entrypoint; (5) in the 2025 revision the
predicates are `hb_vaapi_is_encoder` and ignore availability entirely,
which is what refutes the original claim. -/
theorem C2_amended_rate_control :
    (∀ l : List (Env × Op), InvRC (runOps l)) ∧
    (∀ (env : Env) (s : Impl2024.State), InvRC s →
      (Impl2024.hb_vaapi_h264_available env s).1 = 0 →
      (Impl2024.hb_vaapi_supports_cqp env HB_VCODEC_FFMPEG_VAAPI_H264 s).1 = 0 ∧
      (Impl2024.hb_vaapi_supports_vbr env HB_VCODEC_FFMPEG_VAAPI_H264 s).1 = 0 ∧
      (Impl2024.hb_vaapi_supports_cbr env HB_VCODEC_FFMPEG_VAAPI_H264 s).1 = 0) ∧
    (∀ (env : Env) (s : Impl2024.State), InvRC s →
      (Impl2024.hb_vaapi_h265_available env s).1 = 0 →
      (Impl2024.hb_vaapi_h265_10bit_available env s).1 = 0 →
      (Impl2024.hb_vaapi_supports_cqp env HB_VCODEC_FFMPEG_VAAPI_H265 s).1 = 0 ∧
      (Impl2024.hb_vaapi_supports_cqp env HB_VCODEC_FFMPEG_VAAPI_H265_10BIT s).1 = 0 ∧
      (Impl2024.hb_vaapi_supports_vbr env HB_VCODEC_FFMPEG_VAAPI_H265 s).1 = 0 ∧
      (Impl2024.hb_vaapi_supports_vbr env HB_VCODEC_FFMPEG_VAAPI_H265_10BIT s).1 = 0 ∧
      (Impl2024.hb_vaapi_supports_cbr env HB_VCODEC_FFMPEG_VAAPI_H265 s).1 = 0 ∧
      (Impl2024.hb_vaapi_supports_cbr env HB_VCODEC_FFMPEG_VAAPI_H265_10BIT s).1 = 0) ∧
    (∀ (d : DeviceNode) (p : Int) (caps : Impl2024.hb_vaapi_caps_t),
      (Impl2024.query_vaapi_capabilities d p caps).rate_control_modes =
        caps.rate_control_modes ∨
      ((d.attrs p).ok = true ∧ (d.attrs p).rc ≠ VA_ATTRIB_NOT_SUPPORTED ∧
       Impl2024.hasEncode (d.entry p).entrypoints = true ∧
       (Impl2024.query_vaapi_capabilities d p caps).rate_control_modes =
         (d.attrs p).rc)) ∧
    (∀ v : Int,
      Impl2025.hb_vaapi_supports_cqp v = Impl2025.hb_vaapi_is_encoder v ∧
      Impl2025.hb_vaapi_supports_vbr v = Impl2025.hb_vaapi_is_encoder v ∧
      Impl2025.hb_vaapi_supports_cbr v = Impl2025.hb_vaapi_is_encoder v) := by
  refine ⟨invRC_runOps, supports_rc_zero_h264, supports_rc_zero_h265,
    query_rc_confirmed_2024, fun v => ⟨rfl, rfl, rfl⟩⟩

/-- Claim C2 witness: with no devices, both the H264 and the H265
rate-control predicates of the 2024 revision evaluate to 0 from the
fresh state, via the amended theorem. -/
theorem C2_amended_witness :
    (Impl2024.hb_vaapi_supports_cqp env0 HB_VCODEC_FFMPEG_VAAPI_H264
      Impl2024.initState).1 = 0 ∧
    (Impl2024.hb_vaapi_supports_cqp env0 HB_VCODEC_FFMPEG_VAAPI_H265
      Impl2024.initState).1 = 0 := by
  have hInv : InvRC Impl2024.initState :=
    ⟨Or.inl rfl, Or.inl rfl, Or.inl rfl, fun _ => rfl, fun _ _ => rfl⟩
  exact ⟨(C2_amended_rate_control.2.1 env0 Impl2024.initState hInv
            (by decide)).1,
         (C2_amended_rate_control.2.2.1 env0 Impl2024.initState hInv
            (by decide) (by decide)).1⟩

/-! ## Claims C6, C7, C8, C9 -/
/-- Claim C6, counterexample.  With the hardware-disabled flag set and
one openable device, all three availability predicates do return 0 —
but `hb_vaapi_setup_job` (2025) still runs `vaapi_init_capabilities`,
which never consults the flag, so device-open attempts are performed by
a call into the subsystem. -/
theorem C6_counterexample_setup_job_probes_when_disabled :
    (Impl2025.hb_vaapi_h264_available envD Impl2025.initState).1 = 0 ∧
    (Impl2025.hb_vaapi_h265_available envD Impl2025.initState).1 = 0 ∧
    (Impl2025.hb_vaapi_h265_10bit_available envD Impl2025.initState).1 = 0 ∧
    0 < (openAttempts (Impl2025.hb_vaapi_setup_job envD
      (some { vcodec := 0, width := 100, height := 100 })
      Impl2025.initState).2.2).length := by
  decide

/-- Claim C6, amended: with the flag set, the 2025 availability
predicates return 0 with no device access at all, and the 2024
predicates return 0 with no device access from the unprobed sentinel
state (their probe reads the flag before opening anything) — but the
2025 `hb_vaapi_setup_job` entry point probes (and opens devices)
regardless of the flag, so "no device-open attempt is ever performed by
any call into the subsystem" does not hold. -/
theorem C6_amended_disabled_flag :
    (∀ (env : Env) (s3 : Impl2025.State), env.hardware_disabled = true →
      Impl2025.hb_vaapi_h264_available env s3 = (0, s3, []) ∧
      Impl2025.hb_vaapi_h265_available env s3 = (0, s3, []) ∧
      Impl2025.hb_vaapi_h265_10bit_available env s3 = (0, s3, [])) ∧
    (∀ (env : Env) (s : Impl2024.State), env.hardware_disabled = true →
      (s.is_h264_available = -1 →
        Impl2024.hb_vaapi_h264_available env s =
          (0, { s with is_h264_available := 0 }, [])) ∧
      (s.is_h265_available = -1 →
        Impl2024.hb_vaapi_h265_available env s =
          (0, { s with is_h265_available := 0 }, [])) ∧
      (s.is_h265_10bit_available = -1 →
        Impl2024.hb_vaapi_h265_10bit_available env s =
          (0, { s with is_h265_10bit_available := 0 }, []))) ∧
    0 < (openAttempts (Impl2025.hb_vaapi_setup_job envD
      (some { vcodec := 0, width := 100, height := 100 })
      Impl2025.initState).2.2).length := by
  refine ⟨?_, ?_, by decide⟩
  · intro env s3 hd
    simp [Impl2025.hb_vaapi_h264_available, Impl2025.hb_vaapi_h265_available,
          Impl2025.hb_vaapi_h265_10bit_available, hd]
  · intro env s hd
    refine ⟨fun hs => ?_, fun hs => ?_, fun hs => ?_⟩ <;>
      simp [Impl2024.hb_vaapi_h264_available, Impl2024.hb_vaapi_h265_available,
            Impl2024.hb_vaapi_h265_10bit_available,
            Impl2024.check_vaapi_codec_support, hd, hs]

/-- Claim C6 witness: the amended theorem applied to the disabled
environment and the fresh states. -/
theorem C6_amended_witness :
    Impl2025.hb_vaapi_h264_available envD Impl2025.initState =
      (0, Impl2025.initState, []) ∧
    Impl2024.hb_vaapi_h264_available envD Impl2024.initState =
      (0, { Impl2024.initState with is_h264_available := 0 }, []) := by
  exact ⟨(C6_amended_disabled_flag.1 envD Impl2025.initState rfl).1,
         (C6_amended_disabled_flag.2.1 envD Impl2024.initState rfl).1 rfl⟩



theorem hasEncode_ne_nil {l : List Int}
    (h : Impl2024.hasEncode l = true) : l.length ≠ 0 := by
  cases l with
  | nil => simp [Impl2024.hasEncode] at h
  | cons a t => simp

/-- Claim C7: the B-frame heuristic.  (1) For a completed attribute
query (encode entrypoint confirmed, attribute status success,
reference-frame value reported) starting from a cell that has not been
set to "supported" (the fresh default -1, or 0), the queried cell reads
as B-frame-supported exactly when the reference-frame value is strictly
greater than 2 — in particular 3 gives true and 2 gives false.  (2)
Once a family's probe completed (sentinel no longer -1),
`hb_vaapi_supports_bframes` is exactly the `> 0` collapse of that
family's cell. -/
theorem C7_bframes_heuristic :
    (∀ (d : DeviceNode) (p : Int) (caps : Impl2024.hb_vaapi_caps_t),
      (d.entry p).ok = true →
      Impl2024.hasEncode (d.entry p).entrypoints = true →
      (d.attrs p).ok = true →
      (d.attrs p).refframes ≠ VA_ATTRIB_NOT_SUPPORTED →
      caps.supports_bframes ≤ 0 →
      (0 < (Impl2024.query_vaapi_capabilities d p caps).supports_bframes ↔
        2 < (d.attrs p).refframes)) ∧
    (∀ (env : Env) (s : Impl2024.State),
      (s.is_h264_available ≠ -1 →
        (Impl2024.hb_vaapi_supports_bframes env HB_VCODEC_FFMPEG_VAAPI_H264
          s).1 = (if 0 < s.h264_caps.supports_bframes then 1 else 0)) ∧
      (s.is_h265_available ≠ -1 →
        (Impl2024.hb_vaapi_supports_bframes env HB_VCODEC_FFMPEG_VAAPI_H265
          s).1 = (if 0 < s.h265_caps.supports_bframes then 1 else 0) ∧
        (Impl2024.hb_vaapi_supports_bframes env
          HB_VCODEC_FFMPEG_VAAPI_H265_10BIT s).1 =
          (if 0 < s.h265_caps.supports_bframes then 1 else 0))) := by
  constructor
  · intro d p caps h1 h2 h3 h4 h5
    unfold Impl2024.query_vaapi_capabilities
    dsimp only
    rw [if_neg (by simp [h1, hasEncode_ne_nil h2]),
        if_neg (by simp [h2]), if_neg (by simp [h3])]
    show 0 < (if (d.attrs p).refframes ≠ VA_ATTRIB_NOT_SUPPORTED ∧
                1 < (d.attrs p).refframes
              then (if 2 < (d.attrs p).refframes then 1 else 0)
              else caps.supports_bframes) ↔ 2 < (d.attrs p).refframes
    by_cases h6 : 1 < (d.attrs p).refframes
    · rw [if_pos ⟨h4, h6⟩]
      split_ifs with h7 <;> simp [h7]
    · rw [if_neg (by tauto)]
      constructor
      · intro hlt; omega
      · intro hgt; omega
  · intro env s
    refine ⟨fun hs => ?_, fun hs => ⟨?_, ?_⟩⟩
    · unfold Impl2024.hb_vaapi_supports_bframes
      rw [if_pos rfl]
      unfold Impl2024.hb_vaapi_h264_available
      rw [if_neg hs]
    · unfold Impl2024.hb_vaapi_supports_bframes
      rw [if_neg (by decide), if_pos (Or.inl rfl)]
      unfold Impl2024.hb_vaapi_h265_available
      rw [if_neg hs]
    · unfold Impl2024.hb_vaapi_supports_bframes
      rw [if_neg (by decide), if_pos (Or.inr rfl)]
      unfold Impl2024.hb_vaapi_h265_available
      rw [if_neg hs]

/-- A device identical to `goodNode` but whose encoder reports only two
reference frames. -/
def nodeRef2 : DeviceNode :=
  { goodNode with attrs := fun _ =>
      { ok := true, rc := 0x14, maxw := 4096, maxh := 2160, rt := 0x101,
        refframes := 2, quality := 4, packed := 1 } }

/-- Claim C7 witness: the heuristic theorem applied to a device
reporting 3 reference frames (supported) and one reporting 2 (not
supported). -/
theorem C7_bframes_witness :
    0 < (Impl2024.query_vaapi_capabilities goodNode VAProfileH264Main
          { }).supports_bframes ∧
    ¬ 0 < (Impl2024.query_vaapi_capabilities nodeRef2 VAProfileH264Main
          { }).supports_bframes := by
  constructor
  · exact (C7_bframes_heuristic.1 goodNode VAProfileH264Main { } rfl
      (by decide) rfl (by decide) (by decide)).mpr (by decide)
  · intro h
    exact absurd ((C7_bframes_heuristic.1 nodeRef2 VAProfileH264Main { } rfl
      (by decide) rfl (by decide) (by decide)).mp h) (by decide)



/-- Claim C8: during a successful capability query, every attribute
whose reply is `VA_ATTRIB_NOT_SUPPORTED` leaves its field exactly at
the prior value, while each other field is updated from its own reply
(`supports_bframes` additionally keeps the prior value when the
reference-frame reply is 1 or less, per the source's extra `> 1`
guard). -/
theorem C8_attribute_frame_conditions :
    ∀ (d : DeviceNode) (p : Int) (caps : Impl2024.hb_vaapi_caps_t),
      (d.entry p).ok = true →
      Impl2024.hasEncode (d.entry p).entrypoints = true →
      (d.attrs p).ok = true →
      (((d.attrs p).rc = VA_ATTRIB_NOT_SUPPORTED →
        (Impl2024.query_vaapi_capabilities d p caps).rate_control_modes =
          caps.rate_control_modes) ∧
       ((d.attrs p).rc ≠ VA_ATTRIB_NOT_SUPPORTED →
        (Impl2024.query_vaapi_capabilities d p caps).rate_control_modes =
          (d.attrs p).rc)) ∧
      (((d.attrs p).maxw = VA_ATTRIB_NOT_SUPPORTED →
        (Impl2024.query_vaapi_capabilities d p caps).max_width =
          caps.max_width) ∧
       ((d.attrs p).maxw ≠ VA_ATTRIB_NOT_SUPPORTED →
        (Impl2024.query_vaapi_capabilities d p caps).max_width =
          toInt32 (d.attrs p).maxw)) ∧
      (((d.attrs p).maxh = VA_ATTRIB_NOT_SUPPORTED →
        (Impl2024.query_vaapi_capabilities d p caps).max_height =
          caps.max_height) ∧
       ((d.attrs p).maxh ≠ VA_ATTRIB_NOT_SUPPORTED →
        (Impl2024.query_vaapi_capabilities d p caps).max_height =
          toInt32 (d.attrs p).maxh)) ∧
      (((d.attrs p).rt = VA_ATTRIB_NOT_SUPPORTED →
        (Impl2024.query_vaapi_capabilities d p caps).supports_10bit =
          caps.supports_10bit) ∧
       ((d.attrs p).rt ≠ VA_ATTRIB_NOT_SUPPORTED →
        (Impl2024.query_vaapi_capabilities d p caps).supports_10bit =
          (if (d.attrs p).rt &&& VA_RT_FORMAT_YUV420_10 ≠ 0 then 1 else 0))) ∧
      (((d.attrs p).refframes = VA_ATTRIB_NOT_SUPPORTED →
        (Impl2024.query_vaapi_capabilities d p caps).supports_bframes =
          caps.supports_bframes) ∧
       ((d.attrs p).refframes ≠ VA_ATTRIB_NOT_SUPPORTED →
        1 < (d.attrs p).refframes →
        (Impl2024.query_vaapi_capabilities d p caps).supports_bframes =
          (if 2 < (d.attrs p).refframes then 1 else 0)) ∧
       ((d.attrs p).refframes ≠ VA_ATTRIB_NOT_SUPPORTED →
        ¬ 1 < (d.attrs p).refframes →
        (Impl2024.query_vaapi_capabilities d p caps).supports_bframes =
          caps.supports_bframes)) ∧
      (((d.attrs p).quality = VA_ATTRIB_NOT_SUPPORTED →
        (Impl2024.query_vaapi_capabilities d p caps).quality_levels =
          caps.quality_levels) ∧
       ((d.attrs p).quality ≠ VA_ATTRIB_NOT_SUPPORTED →
        (Impl2024.query_vaapi_capabilities d p caps).quality_levels =
          toInt32 (d.attrs p).quality)) ∧
      (((d.attrs p).packed = VA_ATTRIB_NOT_SUPPORTED →
        (Impl2024.query_vaapi_capabilities d p caps).packed_headers =
          caps.packed_headers) ∧
       ((d.attrs p).packed ≠ VA_ATTRIB_NOT_SUPPORTED →
        (Impl2024.query_vaapi_capabilities d p caps).packed_headers =
          (d.attrs p).packed)) := by
  intro d p caps h1 h2 h3
  unfold Impl2024.query_vaapi_capabilities
  dsimp only
  rw [if_neg (by simp [h1, hasEncode_ne_nil h2]),
      if_neg (by simp [h2]), if_neg (by simp [h3])]
  refine ⟨⟨fun hrcN => ?_, fun hrcY => ?_⟩,
          ⟨fun hwN => ?_, fun hwY => ?_⟩,
          ⟨fun hhN => ?_, fun hhY => ?_⟩,
          ⟨fun hrtN => ?_, fun hrtY => ?_⟩,
          ⟨fun hrfN => ?_, fun hrfY hrfGt => ?_, fun hrfY hrfLe => ?_⟩,
          ⟨fun hqN => ?_, fun hqY => ?_⟩,
          ⟨fun hpkN => ?_, fun hpkY => ?_⟩⟩ <;>
    simp_all

/-- A device whose encoder reports the width attribute as unsupported
while all other attributes answer. -/
def nodeNoWidth : DeviceNode :=
  { goodNode with attrs := fun _ =>
      { ok := true, rc := 0x14, maxw := VA_ATTRIB_NOT_SUPPORTED,
        maxh := 2160, rt := 0x101, refframes := 3, quality := 4,
        packed := 1 } }

/-- Claim C8 witness: a device whose width attribute is unsupported
keeps `max_width` at the prior default 0 while `max_height` and the
rate-control bitmask are still updated from their replies. -/
theorem C8_attribute_frame_witness :
    (Impl2024.query_vaapi_capabilities nodeNoWidth VAProfileH264Main
      { }).max_width = (0 : Int) ∧
    (Impl2024.query_vaapi_capabilities nodeNoWidth VAProfileH264Main
      { }).max_height = (2160 : Int) ∧
    (Impl2024.query_vaapi_capabilities nodeNoWidth VAProfileH264Main
      { }).rate_control_modes = 0x14 := by
  have h := C8_attribute_frame_conditions nodeNoWidth VAProfileH264Main { }
    rfl (by decide) rfl
  refine ⟨?_, ?_, ?_⟩
  · have := h.2.1.1 rfl
    simpa using this
  · have := h.2.2.1.2 (by decide)
    simpa using this
  · exact h.1.2 (by decide)

/-- Claim C9: the decoder resolver returns a non-absent identifier
whenever a software decoder exists for the codec — whatever the
compiled-in and hardware-confirmation state — and an absent result
implies that no software decoder exists and (when the hardware path was
live) that the hardware lookup found nothing either. -/
theorem C9_decoder_resolution (ff : FFEnv) (compiled_in hw_confirmed : Bool)
    (codec : Int) :
    ((ff.by_id codec).isSome →
      (resolve_decoder ff compiled_in hw_confirmed codec).isSome) ∧
    (resolve_decoder ff compiled_in hw_confirmed codec = none →
      ff.by_id codec = none ∧
      (compiled_in = true → hw_confirmed = true →
        vaapi_find_decoder ff codec = none)) := by
  unfold resolve_decoder
  split_ifs with h
  · cases hf : vaapi_find_decoder ff codec with
    | some dd => simp
    | none =>
      constructor
      · intro hb; simpa using hb
      · intro h0; exact ⟨h0, fun _ _ => rfl⟩
  · constructor
    · intro hb; simpa using hb
    · intro h0
      exact ⟨h0, fun hc hw => absurd (And.intro hc hw) h⟩

/-- A libavcodec environment with no VAAPI decoders compiled in but a
software H264 decoder. -/
def ffSwOnly : FFEnv :=
  { by_name := fun _ => none,
    by_id := fun c => if c = AV_CODEC_ID_H264 then some "h264" else none }

/-- Claim C9 witness: with only a software H264 decoder present the
resolver is non-absent both with the subsystem compiled out and with it
live. -/
theorem C9_decoder_resolution_witness :
    (resolve_decoder ffSwOnly false false AV_CODEC_ID_H264).isSome ∧
    (resolve_decoder ffSwOnly true true AV_CODEC_ID_H264).isSome := by
  exact ⟨(C9_decoder_resolution ffSwOnly false false AV_CODEC_ID_H264).1
           (by decide),
         (C9_decoder_resolution ffSwOnly true true AV_CODEC_ID_H264).1
           (by decide)⟩

/-! ## Claim C10 -/

/-- Claim C10: in any fixed cache state, the result (and the state
effect) of `hb_vaapi_decode_is_codec_supported` is the same for any two
calls agreeing on codec and pixel format, however the adapter index,
width and height differ — the decision never reads those arguments. -/
theorem C10_decode_support_ignores_adapter_and_resolution :
    ∀ (env : Env) (s : Impl2024.State) (a1 a2 c pf w1 h1 w2 h2 : Int),
      Impl2024.hb_vaapi_decode_is_codec_supported env a1 c pf w1 h1 s =
      Impl2024.hb_vaapi_decode_is_codec_supported env a2 c pf w2 h2 s := by
  intro env s a1 a2 c pf w1 h1 w2 h2
  rfl

end HB
